import Mathlib

/-!
Shallow embedding of the image transform pipeline of tscodex-mcp-images.

The source of truth is src/image-processor.ts together with the tool layer
that calls it. JavaScript numbers are modelled exactly over the rationals:
Math.round is round-half-up, Math.floor is the floor, Math.max and Math.min
are max and min. Dimensions are integers. The raster library (sharp) is an
external collaborator; only its boundary behaviour is modelled, following
the contracts stated for it (resize fit fill produces exactly the target
dimensions, withoutEnlargement keeps the source dimensions whenever the
target would enlarge either axis, and destination-in compositing takes the
alpha of the mask layer).
-/

set_option autoImplicit false

namespace TscodexMcpImages

/-- Math.round of JavaScript: round half toward positive infinity. -/
def jsRound (q : ℚ) : ℤ := ⌊q + 1/2⌋

/-- Math.floor of JavaScript. -/
def jsFloor (q : ℚ) : ℤ := ⌊q⌋

/-- Truthiness of an optional JavaScript number: undefined and 0 are falsy. -/
def truthyNum (o : Option ℤ) : Bool :=
  match o with
  | some n => decide (n ≠ 0)
  | none => false

/-- Truthiness of an optional JavaScript string: undefined and the empty
string are falsy. -/
def truthyStr (o : Option String) : Bool :=
  match o with
  | some s => decide (s ≠ (r""))
  | none => false

/-- JavaScript `a || b` for an optional number: the default is used when the
value is undefined or 0. -/
def jsOrInt (o : Option ℤ) (d : ℤ) : ℤ :=
  match o with
  | some n => if n = 0 then d else n
  | none => d

/-- Split of a character list at every occurrence of a separator, with the
semantics of the split method of JavaScript strings. -/
def splitOnChar (sep : Char) : List Char → List (List Char)
  | [] => [[]]
  | c :: cs =>
    match splitOnChar sep cs with
    | [] => [[]]
    | seg :: segs => if c = sep then [] :: seg :: segs else (c :: seg) :: segs

/-- Characterwise lowercasing. -/
def lowerChars (cs : List Char) : List Char := cs.map Char.toLower

/-- Last dot-separated segment of a path, lowercased; this embeds the
split-pop-toLowerCase chain of determineFormat. -/
def lastDotSegment (path : String) : String :=
  String.mk (lowerChars ((splitOnChar ('.') path.data).getLastD []))

/-- Extension-to-format table of determineFormat. -/
def extFormatMap (ext : String) : Option String :=
  if ext = (r"webp") then some (r"webp")
  else if ext = (r"jpg") then some (r"jpeg")
  else if ext = (r"jpeg") then some (r"jpeg")
  else if ext = (r"png") then some (r"png")
  else if ext = (r"avif") then some (r"avif")
  else none

/-- determineFormat of src/image-processor.ts: explicit parameter first
(with jpg normalized to jpeg), then the extension of the output path, then
the configured default. -/
def determineFormat (targetPath : String) (formatParam : Option String)
    (defaultFormat : String) : String :=
  match formatParam with
  | some fp =>
      if fp = (r"") then (extFormatMap (lastDotSegment targetPath)).getD defaultFormat
      else if fp = (r"jpg") then (r"jpeg") else fp
  | none => (extFormatMap (lastDotSegment targetPath)).getD defaultFormat

/-- Crop rectangle handed to the extract primitive. -/
structure CropRect where
  left : ℤ
  top : ℤ
  width : ℤ
  height : ℤ
  deriving DecidableEq, Repr

/-- Centered aspect-ratio crop computed in processLocalImage and
processAndSaveImage: compare the original ratio with the target ratio,
shrink exactly one axis by rounding, and center the rectangle with floors. -/
def aspectCropRect (origW origH aw ah : ℤ) : CropRect :=
  let target : ℚ := (aw : ℚ) / (ah : ℚ)
  let original : ℚ := (origW : ℚ) / (origH : ℚ)
  let cropWidth : ℤ :=
    if original > target then jsRound ((origH : ℚ) * target) else origW
  let cropHeight : ℤ :=
    if original < target then jsRound ((origW : ℚ) / target) else origH
  { left := jsFloor (((origW : ℚ) - (cropWidth : ℚ)) / 2)
    top := jsFloor (((origH : ℚ) - (cropHeight : ℚ)) / 2)
    width := cropWidth
    height := cropHeight }

/-- Output dimensions of the collaborator resize with fit fill: exactly the
target, except that with withoutEnlargement the source dimensions are kept
whenever the target would enlarge either axis. -/
def resizeFillDims (srcW srcH tgtW tgtH : ℤ) (withoutEnlargement : Bool) : ℤ × ℤ :=
  if withoutEnlargement = true ∧ (srcW < tgtW ∨ srcH < tgtH) then (srcW, srcH)
  else (tgtW, tgtH)

/-- Output dimensions of the collaborator resize with fit inside and only a
width given: the height follows the source aspect ratio. -/
def resizeInsideWidthOnly (srcW srcH tgtW : ℤ) : ℤ × ℤ :=
  (tgtW, jsRound ((srcH : ℚ) * (tgtW : ℚ) / (srcW : ℚ)))

/-- Output dimensions of the collaborator resize with fit inside and only a
height given. -/
def resizeInsideHeightOnly (srcW srcH tgtH : ℤ) : ℤ × ℤ :=
  (jsRound ((srcW : ℚ) * (tgtH : ℚ) / (srcH : ℚ)), tgtH)

/-- Output dimensions of the collaborator resize bounded by a maximum width
with fit inside and withoutEnlargement. -/
def resizeInsideMaxWidth (srcW srcH maxW : ℤ) : ℤ × ℤ :=
  if srcW ≤ maxW then (srcW, srcH)
  else (maxW, jsRound ((srcH : ℚ) * (maxW : ℚ) / (srcW : ℚ)))

/-- Output dimensions of the sizing chain shared by processAndSaveImage and
processLocalImage, with the priority exact dimensions, then aspect ratio,
then maxWidth. -/
def baseDims (origW origH : ℤ) (exactW exactH : Option ℤ)
    (aspect : Option (ℤ × ℤ)) (maxW : ℤ) : ℤ × ℤ :=
  if truthyNum exactW = true ∧ truthyNum exactH = true then
    resizeFillDims origW origH (exactW.getD 0) (exactH.getD 0) false
  else if truthyNum exactW = true then
    resizeInsideWidthOnly origW origH (exactW.getD 0)
  else if truthyNum exactH = true then
    resizeInsideHeightOnly origW origH (exactH.getD 0)
  else
    match aspect with
    | some pair =>
        let rect := aspectCropRect origW origH pair.1 pair.2
        resizeFillDims rect.width rect.height maxW
          (jsRound ((maxW : ℚ) / ((pair.1 : ℚ) / (pair.2 : ℚ)))) true
    | none => resizeInsideMaxWidth origW origH maxW

/-- Options record of processLocalImage. -/
structure LocalOptions where
  format : Option String := none
  maxWidth : Option ℤ := none
  quality : Option ℤ := none
  aspectRatio : Option (ℤ × ℤ) := none
  width : Option ℤ := none
  height : Option ℤ := none
  circle : Bool := false

/-- Aspect ratio actually used by processLocalImage: circle mode forces 1:1. -/
def effectiveAspect (o : LocalOptions) : Option (ℤ × ℤ) :=
  if o.circle then some (1, 1) else o.aspectRatio

/-- Dimensions after the circle branch of processLocalImage: center-crop to
the minimum side, then resize with fit fill to an exact square. -/
def circleDims (tw th : ℤ) : ℤ × ℤ :=
  let size := min tw th
  if tw ≠ th then
    let left := max 0 (jsFloor (((tw : ℚ) - (size : ℚ)) / 2))
    let top := max 0 (jsFloor (((th : ℚ) - (size : ℚ)) / 2))
    resizeFillDims (min size (tw - left)) (min size (th - top)) size size false
  else
    resizeFillDims tw th size size false

/-- Output dimensions of processLocalImage. -/
def processLocalDims (origW origH : ℤ) (o : LocalOptions) (defaultMaxWidth : ℤ) : ℤ × ℤ :=
  let maxW := jsOrInt o.maxWidth defaultMaxWidth
  let base := baseDims origW origH o.width o.height (effectiveAspect o) maxW
  if o.circle then circleDims base.1 base.2 else base

/-- Output format of processLocalImage: circle mode forces png, otherwise
determineFormat decides. -/
def processLocalFormat (targetPath : String) (o : LocalOptions)
    (defaultFormat : String) : String :=
  if o.circle then (r"png") else determineFormat targetPath o.format defaultFormat

/-- Alpha of the vector circle mask generated in circle mode: a circle of
radius size over two centered at the center of the square canvas, opaque
inside and fully transparent outside. -/
def circleMaskAlpha (size x y : ℚ) : ℚ :=
  let radius := size / 2
  if (x - radius) ^ 2 + (y - radius) ^ 2 ≤ radius ^ 2 then 1 else 0

/-- Destination-in compositing at the collaborator boundary: the output
alpha equals the alpha of the mask layer. -/
def destInAlpha (maskAlpha : ℚ) : ℚ := maskAlpha

/-- Alpha channel of the circle-mode output at a point of the square canvas. -/
def circleOutputAlpha (size x y : ℚ) : ℚ :=
  destInAlpha (circleMaskAlpha size x y)

/-- Options record built by the image_create_placeholder tool and passed to
createPlaceholderImage. The tool schema declares a transparent flag and the
handler forwards it, but the option type of createPlaceholderImage has no
such field: the implementation never reads it, which the embedding mirrors
by carrying the field and ignoring it. -/
structure PlaceholderOptions where
  width : ℤ
  height : ℤ
  backgroundColor : Option String := none
  textColor : Option String := none
  format : Option String := none
  useImage : Bool := false
  imageId : Option ℤ := none
  blur : Option ℤ := none
  grayscale : Bool := false
  transparent : Bool := false

/-- Label drawn in the middle of a generated placeholder. -/
def placeholderLabel (w h : ℤ) : String :=
  toString w ++ (r" × ") ++ toString h

/-- Canvas produced by createPlaceholderImage: either a filled vector
rectangle with a centered size label, or bytes fetched from the
random-image collaborator. -/
inductive PlaceholderCanvas where
  | svgText (backgroundColor textColor : String) (fontSize : ℚ) (label : String)
  | picsumFetch (width height : ℤ) (imageId : Option ℤ) (blur : Option ℤ) (grayscale : Bool)
  deriving DecidableEq, Repr

/-- Format and canvas chosen by createPlaceholderImage of
src/image-processor.ts. Color defaults come from the destructuring
defaults of the function. -/
def createPlaceholderImagePlan (targetPath : String) (defaultFormat : String)
    (o : PlaceholderOptions) : String × PlaceholderCanvas :=
  let backgroundColor := o.backgroundColor.getD (r"#cccccc")
  let textColor := o.textColor.getD (r"#666666")
  let format := determineFormat targetPath o.format defaultFormat
  let canvas :=
    if o.useImage then
      PlaceholderCanvas.picsumFetch o.width o.height o.imageId o.blur o.grayscale
    else
      PlaceholderCanvas.svgText backgroundColor textColor
        ((min o.width o.height : ℚ) / 8) (placeholderLabel o.width o.height)
  (format, canvas)

/-- Position presets of addWatermark. -/
inductive WatermarkPosition where
  | center
  | topLeft
  | topRight
  | bottomLeft
  | bottomRight
  | custom
  deriving DecidableEq, Repr

/-- Watermark position before clamping, as computed by the switch of
addWatermark; the five percent margins use Math.floor, and custom
coordinates default to 0 when absent. -/
def watermarkRawPos (pos : WatermarkPosition) (x y : Option ℤ)
    (imgW imgH wmW wmH : ℤ) : ℤ × ℤ :=
  match pos with
  | WatermarkPosition.center =>
      (jsFloor (((imgW : ℚ) - (wmW : ℚ)) / 2), jsFloor (((imgH : ℚ) - (wmH : ℚ)) / 2))
  | WatermarkPosition.topLeft =>
      (jsFloor ((imgW : ℚ) * (5 / 100)), jsFloor ((imgH : ℚ) * (5 / 100)))
  | WatermarkPosition.topRight =>
      (jsFloor ((imgW : ℚ) - (wmW : ℚ) - (imgW : ℚ) * (5 / 100)),
       jsFloor ((imgH : ℚ) * (5 / 100)))
  | WatermarkPosition.bottomLeft =>
      (jsFloor ((imgW : ℚ) * (5 / 100)),
       jsFloor ((imgH : ℚ) - (wmH : ℚ) - (imgH : ℚ) * (5 / 100)))
  | WatermarkPosition.bottomRight =>
      (jsFloor ((imgW : ℚ) - (wmW : ℚ) - (imgW : ℚ) * (5 / 100)),
       jsFloor ((imgH : ℚ) - (wmH : ℚ) - (imgH : ℚ) * (5 / 100)))
  | WatermarkPosition.custom => (x.getD 0, y.getD 0)

/-- Watermark position actually used for compositing: the raw position
clamped into the image, matching the Math.max and Math.min lines of
addWatermark. -/
def watermarkFinalPos (pos : WatermarkPosition) (x y : Option ℤ)
    (imgW imgH wmW wmH : ℤ) : ℤ × ℤ :=
  let raw := watermarkRawPos pos x y imgW imgH wmW wmH
  (max 0 (min raw.1 (imgW - wmW)), max 0 (min raw.2 (imgH - wmH)))

/-- Watermark source selected by addWatermark. -/
inductive WatermarkSource where
  | textWm (text : String)
  | imageWm (path : String)
  deriving DecidableEq, Repr

/-- Source-selection branching of addWatermark: a truthy text wins, else a
truthy watermark image path, else the missing-source error. -/
def selectWatermarkSource (text imagePath : Option String) :
    Except String WatermarkSource :=
  if truthyStr text = true then Except.ok (WatermarkSource.textWm (text.getD (r"")))
  else if truthyStr imagePath = true then
    Except.ok (WatermarkSource.imageWm (imagePath.getD (r"")))
  else Except.error (r"Either text or watermarkImagePath must be provided")

/-- Validation error of cropImage, carrying the offending bound. -/
inductive CropBoundError where
  | widthExceeded (x w imgW : ℤ)
  | heightExceeded (y h imgH : ℤ)
  deriving DecidableEq, Repr

/-- Message rendered for a crop validation error, naming the offending
bound as in cropImage. -/
def cropErrorMessage : CropBoundError → String
  | CropBoundError.widthExceeded x w imgW =>
      (r"Crop area exceeds image width: x(") ++ toString x ++ (r") + width(")
        ++ toString w ++ (r") > imageWidth(") ++ toString imgW ++ (r")")
  | CropBoundError.heightExceeded y h imgH =>
      (r"Crop area exceeds image height: y(") ++ toString y ++ (r") + height(")
        ++ toString h ++ (r") > imageHeight(") ++ toString imgH ++ (r")")

/-- Sanitization and bound validation of cropImage: coordinates are floored
and clamped below at 0, lengths at 1, and a rectangle reaching past either
image bound is rejected before the crop primitive runs; otherwise the
sanitized rectangle is handed to extract. -/
def cropImagePlan (imgW imgH : ℤ) (ox oy ow oh : ℚ) :
    Except CropBoundError CropRect :=
  let x := max 0 (jsFloor ox)
  let y := max 0 (jsFloor oy)
  let w := max 1 (jsFloor ow)
  let h := max 1 (jsFloor oh)
  if imgW < x + w then Except.error (CropBoundError.widthExceeded x w imgW)
  else if imgH < y + h then Except.error (CropBoundError.heightExceeded y h imgH)
  else Except.ok { left := x, top := y, width := w, height := h }

/-- Color-correction operation queued by applyFilters. -/
inductive ColorOp where
  | modulate (brightness saturation : ℚ)
  | linear (a b : ℚ)
  deriving DecidableEq, Repr

/-- Slope of the contrast transform of applyFilters. -/
def contrastFactor (contrast : ℚ) : ℚ := 1 + contrast / 100

/-- Intercept of the contrast transform of applyFilters. -/
def contrastIntercept (contrast : ℚ) : ℚ :=
  if contrast < 0 then 0.25 * (1 - contrastFactor contrast)
  else -0.5 * (contrastFactor contrast - 1)

/-- Color-correction operations applied by applyFilters for given
brightness, contrast and saturation values: nothing when all three are
zero, otherwise a modulate step when brightness or saturation is nonzero
followed by a linear contrast step when contrast is nonzero. -/
def colorCorrectionOps (brightness contrast saturation : ℚ) : List ColorOp :=
  if brightness ≠ 0 ∨ contrast ≠ 0 ∨ saturation ≠ 0 then
    (if brightness ≠ 0 ∨ saturation ≠ 0 then
       [ColorOp.modulate (1 + brightness / 100) (1 + saturation / 100)]
     else [])
      ++ (if contrast ≠ 0 then
            [ColorOp.linear (contrastFactor contrast) (contrastIntercept contrast)]
          else [])
  else []

/-- Pixel transform denoted by a linear color operation. -/
def linearApply (a b v : ℚ) : ℚ := a * v + b

/-- Both branches of the circle post-step end in a fit-fill resize to the
square of the minimum side, so the result is always square. -/
theorem circleDims_fst_eq_snd (tw th : ℤ) : (circleDims tw th).1 = (circleDims tw th).2 := by
  unfold circleDims resizeFillDims
  split_ifs <;> simp_all

/-- Claim C1: for an aspect-ratio request aw:ah with no exact dimensions,
the geometry plan crops the width to round(origH times aw over ah) when the
source is wider than the target ratio, crops the height to round(origW
divided by the target ratio) when it is narrower, leaves the full frame
when the ratios agree, and centers the rectangle with floored offsets. -/
theorem aspect_ratio_crop_centered (origW origH aw ah : ℤ)
    (hW : 0 < origW) (hH : 0 < origH) (ha : 0 < aw) (hb : 0 < ah) :
    (((origW : ℚ) / (origH : ℚ) > (aw : ℚ) / (ah : ℚ)) →
      (aspectCropRect origW origH aw ah).width = jsRound ((origH : ℚ) * ((aw : ℚ) / (ah : ℚ))) ∧
      (aspectCropRect origW origH aw ah).height = origH) ∧
    (((origW : ℚ) / (origH : ℚ) < (aw : ℚ) / (ah : ℚ)) →
      (aspectCropRect origW origH aw ah).height = jsRound ((origW : ℚ) / ((aw : ℚ) / (ah : ℚ))) ∧
      (aspectCropRect origW origH aw ah).width = origW) ∧
    (((origW : ℚ) / (origH : ℚ) = (aw : ℚ) / (ah : ℚ)) →
      (aspectCropRect origW origH aw ah).width = origW ∧
      (aspectCropRect origW origH aw ah).height = origH) ∧
    (aspectCropRect origW origH aw ah).left =
      jsFloor (((origW : ℚ) - ((aspectCropRect origW origH aw ah).width : ℚ)) / 2) ∧
    (aspectCropRect origW origH aw ah).top =
      jsFloor (((origH : ℚ) - ((aspectCropRect origW origH aw ah).height : ℚ)) / 2) := by
  rcases lt_trichotomy ((origW : ℚ) / (origH : ℚ)) ((aw : ℚ) / (ah : ℚ)) with h | h | h
  · have h1 : ¬ ((origW : ℚ) / (origH : ℚ) > (aw : ℚ) / (ah : ℚ)) := not_lt.mpr h.le
    simp only [aspectCropRect, if_neg h1, if_pos h]
    simp [h1, h.ne]
  · have h1 : ¬ ((origW : ℚ) / (origH : ℚ) > (aw : ℚ) / (ah : ℚ)) := not_lt.mpr h.le
    have h2 : ¬ ((origW : ℚ) / (origH : ℚ) < (aw : ℚ) / (ah : ℚ)) := not_lt.mpr h.ge
    simp only [aspectCropRect, if_neg h1, if_neg h2]
    simp [h1, h2]
  · have h2 : ¬ ((origW : ℚ) / (origH : ℚ) < (aw : ℚ) / (ah : ℚ)) := not_lt.mpr h.le
    simp only [aspectCropRect, gt_iff_lt, if_pos h, if_neg h2]
    simp [h2, h.ne']

/-- Witness for claim C1 on the 4000 by 2000 source with ratio 16:9. -/
theorem aspect_ratio_crop_centered_witness :
    (aspectCropRect 4000 2000 16 9).width = jsRound ((2000 : ℚ) * ((16 : ℚ) / 9)) ∧
    (aspectCropRect 4000 2000 16 9).height = 2000 :=
  (aspect_ratio_crop_centered 4000 2000 16 9 (by norm_num) (by norm_num)
    (by norm_num) (by norm_num)).1 (by norm_num)

/-- Claim C2, counterexample: on a 160 by 90 source with ratio 16:9 and
maxWidth 1920, withoutEnlargement keeps the 160 by 90 crop, so the output
width is not 1920 even within one pixel. -/
theorem aspect_ratio_output_dims_cex :
    baseDims 160 90 none none (some (16, 9)) 1920 = (160, 90) ∧
    1 < ((baseDims 160 90 none none (some (16, 9)) 1920).1 - 1920).natAbs := by
  have h : baseDims 160 90 none none (some (16, 9)) 1920 = (160, 90) := by
    norm_num [baseDims, truthyNum, aspectCropRect, jsRound, jsFloor, resizeFillDims]
  exact ⟨h, by rw [h]; norm_num⟩

/-- Claim C2, amended: for an aspect-ratio request aw:ah with maxWidth W
and no exact dimensions, whenever the centered crop is at least as large as
the target in both axes, the output dimensions are exactly W and
round(W times ah over aw). -/
theorem aspect_ratio_output_dims (origW origH aw ah maxW : ℤ)
    (hcw : maxW ≤ (aspectCropRect origW origH aw ah).width)
    (hch : jsRound ((maxW : ℚ) / ((aw : ℚ) / (ah : ℚ))) ≤ (aspectCropRect origW origH aw ah).height) :
    baseDims origW origH none none (some (aw, ah)) maxW =
      (maxW, jsRound ((maxW : ℚ) * (ah : ℚ) / (aw : ℚ))) := by
  have hdiv : (maxW : ℚ) / ((aw : ℚ) / (ah : ℚ)) = (maxW : ℚ) * (ah : ℚ) / (aw : ℚ) :=
    div_div_eq_mul_div _ _ _
  simp only [baseDims, truthyNum, Bool.false_eq_true, and_self, if_false, false_and, if_neg]
  unfold resizeFillDims
  rw [if_neg, hdiv]
  rintro ⟨-, hlt | hlt⟩
  · exact absurd hlt (not_lt.mpr hcw)
  · exact absurd hlt (not_lt.mpr hch)

/-- Witness for claim C2 on the 4000 by 2000 source, ratio 16:9, maxWidth
1920. -/
theorem aspect_ratio_output_dims_witness :
    baseDims 4000 2000 none none (some (16, 9)) 1920 =
      (1920, jsRound ((1920 : ℚ) * (9 : ℚ) / (16 : ℚ))) :=
  aspect_ratio_output_dims 4000 2000 16 9 1920
    (by norm_num [aspectCropRect, jsRound, jsFloor])
    (by norm_num [aspectCropRect, jsRound, jsFloor])

/-- Claim C3: a request with both exact dimensions set produces exactly
those output dimensions, for every source and regardless of any aspect
ratio or maxWidth also present. -/
theorem exact_dims_output (origW origH w h maxW : ℤ) (aspect : Option (ℤ × ℤ))
    (hw : 0 < w) (hh : 0 < h) :
    baseDims origW origH (some w) (some h) aspect maxW = (w, h) := by
  simp [baseDims, truthyNum, hw.ne', hh.ne', resizeFillDims]

/-- Witness for claim C3 on a 4000 by 2000 source with exact dimensions
300 by 500. -/
theorem exact_dims_output_witness :
    baseDims 4000 2000 (some 300) (some 500) none 1920 = (300, 500) :=
  exact_dims_output 4000 2000 300 500 1920 none (by norm_num) (by norm_num)

/-- Claim C4: with circle mode on, the output format is png regardless of
the requested format or path extension, the output is square, and the
masked alpha channel is zero strictly outside the inscribed centered
circle and one at the center. -/
theorem circle_mode_png_square_alpha (path : String) (defFmt : String) (o : LocalOptions)
    (origW origH defMaxW : ℤ) (hc : o.circle = true) :
    processLocalFormat path o defFmt = (r"png") ∧
    (processLocalDims origW origH o defMaxW).1 = (processLocalDims origW origH o defMaxW).2 ∧
    (∀ size x y : ℚ, (size / 2) ^ 2 < (x - size / 2) ^ 2 + (y - size / 2) ^ 2 →
      circleOutputAlpha size x y = 0) ∧
    (∀ size : ℚ, circleOutputAlpha size (size / 2) (size / 2) = 1) := by
  refine ⟨by simp [processLocalFormat, hc], ?_, ?_, ?_⟩
  · simp only [processLocalDims, hc, if_true]
    exact circleDims_fst_eq_snd _ _
  · intro size x y hout
    simp only [circleOutputAlpha, destInAlpha, circleMaskAlpha]
    rw [if_neg (not_le.mpr hout)]
  · intro size
    simp only [circleOutputAlpha, destInAlpha, circleMaskAlpha]
    rw [if_pos (by nlinarith [sq_nonneg (size / 2)])]

/-- Witness for claim C4: circle mode with a jpeg format request on a webp
path still yields png, and the mask alpha is 0 at a corner and 1 at the
center of a 100 pixel square. -/
theorem circle_mode_png_square_alpha_witness :
    processLocalFormat (r"photo.webp") { format := some (r"jpeg"), circle := true } (r"webp")
      = (r"png") ∧
    circleOutputAlpha 100 0 0 = 0 ∧
    circleOutputAlpha 100 (100 / 2) (100 / 2) = 1 := by
  have h := circle_mode_png_square_alpha (r"photo.webp") (r"webp")
    { format := some (r"jpeg"), circle := true } 800 600 1920 rfl
  exact ⟨h.1, h.2.2.1 100 0 0 (by norm_num), h.2.2.2 100⟩

/-- Claim C5: the transparent flag accepted by the placeholder tool is not
read by createPlaceholderImage, so it never changes the plan; at the
failing input the output format follows the path extension instead of
being forced to png, and the supplied backgroundColor is painted. -/
theorem placeholder_transparent_flag_ignored :
    (∀ (p d : String) (o : PlaceholderOptions),
      createPlaceholderImagePlan p d { o with transparent := true } =
        createPlaceholderImagePlan p d { o with transparent := false }) ∧
    createPlaceholderImagePlan (r"spacer.webp") (r"webp")
        { width := 300, height := 150, backgroundColor := some (r"#ff0000"),
          transparent := true } =
      ((r"webp"),
        PlaceholderCanvas.svgText (r"#ff0000") (r"#666666") ((150 : ℚ) / 8)
          (placeholderLabel 300 150)) := by
  refine ⟨fun p d o => rfl, ?_⟩
  unfold createPlaceholderImagePlan
  refine Prod.ext ?_ ?_
  · decide
  · show PlaceholderCanvas.svgText _ _ _ _ = _
    norm_num

/-- Claim C6: for every position preset and any custom coordinates, the
clamped watermark position stays inside the image whenever the image is at
least as large as the watermark on both axes. -/
theorem watermark_position_clamped (pos : WatermarkPosition) (x y : Option ℤ)
    (imgW imgH wmW wmH : ℤ) (hw : wmW ≤ imgW) (hh : wmH ≤ imgH) :
    0 ≤ (watermarkFinalPos pos x y imgW imgH wmW wmH).1 ∧
    (watermarkFinalPos pos x y imgW imgH wmW wmH).1 ≤ imgW - wmW ∧
    0 ≤ (watermarkFinalPos pos x y imgW imgH wmW wmH).2 ∧
    (watermarkFinalPos pos x y imgW imgH wmW wmH).2 ≤ imgH - wmH ∧
    (watermarkFinalPos pos x y imgW imgH wmW wmH).1 + wmW ≤ imgW ∧
    (watermarkFinalPos pos x y imgW imgH wmW wmH).2 + wmH ≤ imgH := by
  simp only [watermarkFinalPos]
  generalize watermarkRawPos pos x y imgW imgH wmW wmH = raw
  obtain ⟨l, t⟩ := raw
  simp only
  omega

/-- Witness for claim C6 with absurd custom coordinates on a 100 by 100
image and a 40 by 40 watermark. -/
theorem watermark_position_clamped_witness :
    0 ≤ (watermarkFinalPos WatermarkPosition.custom (some 5000) (some (-7)) 100 100 40 40).1 ∧
    (watermarkFinalPos WatermarkPosition.custom (some 5000) (some (-7)) 100 100 40 40).1 ≤ 100 - 40 ∧
    0 ≤ (watermarkFinalPos WatermarkPosition.custom (some 5000) (some (-7)) 100 100 40 40).2 ∧
    (watermarkFinalPos WatermarkPosition.custom (some 5000) (some (-7)) 100 100 40 40).2 ≤ 100 - 40 ∧
    (watermarkFinalPos WatermarkPosition.custom (some 5000) (some (-7)) 100 100 40 40).1 + 40 ≤ 100 ∧
    (watermarkFinalPos WatermarkPosition.custom (some 5000) (some (-7)) 100 100 40 40).2 + 40 ≤ 100 :=
  watermark_position_clamped WatermarkPosition.custom (some 5000) (some (-7)) 100 100 40 40
    (by norm_num) (by norm_num)

/-- Claim C7: cropImage rejects a sanitized rectangle exactly when it
reaches past the image width or height, the raised error carries the
offending bound, and an in-bounds rectangle is passed on unchanged. -/
theorem crop_bounds_validation (imgW imgH : ℤ) (ox oy ow oh : ℚ) :
    ((∃ e, cropImagePlan imgW imgH ox oy ow oh = Except.error e) ↔
      imgW < max 0 (jsFloor ox) + max 1 (jsFloor ow) ∨
      imgH < max 0 (jsFloor oy) + max 1 (jsFloor oh)) ∧
    (imgW < max 0 (jsFloor ox) + max 1 (jsFloor ow) →
      cropImagePlan imgW imgH ox oy ow oh =
        Except.error (CropBoundError.widthExceeded (max 0 (jsFloor ox)) (max 1 (jsFloor ow)) imgW)) ∧
    (¬ imgW < max 0 (jsFloor ox) + max 1 (jsFloor ow) →
      imgH < max 0 (jsFloor oy) + max 1 (jsFloor oh) →
      cropImagePlan imgW imgH ox oy ow oh =
        Except.error (CropBoundError.heightExceeded (max 0 (jsFloor oy)) (max 1 (jsFloor oh)) imgH)) ∧
    (¬ imgW < max 0 (jsFloor ox) + max 1 (jsFloor ow) →
      ¬ imgH < max 0 (jsFloor oy) + max 1 (jsFloor oh) →
      cropImagePlan imgW imgH ox oy ow oh =
        Except.ok { left := max 0 (jsFloor ox), top := max 0 (jsFloor oy),
                    width := max 1 (jsFloor ow), height := max 1 (jsFloor oh) }) := by
  unfold cropImagePlan
  dsimp only
  split_ifs with hA hB <;> simp_all

/-- Witness for claim C7: a 150 wide rectangle on a 100 wide image is
rejected with the width bound, and a rectangle inside the bounds passes. -/
theorem crop_bounds_validation_witness :
    cropImagePlan 100 80 0 0 150 10 =
      Except.error (CropBoundError.widthExceeded (max 0 (jsFloor 0)) (max 1 (jsFloor 150)) 100) ∧
    cropImagePlan 100 80 10 10 50 50 =
      Except.ok { left := max 0 (jsFloor 10), top := max 0 (jsFloor 10),
                  width := max 1 (jsFloor 50), height := max 1 (jsFloor 50) } :=
  ⟨(crop_bounds_validation 100 80 0 0 150 10).2.1 (by norm_num [jsFloor]),
   (crop_bounds_validation 100 80 10 10 50 50).2.2.2
     (by norm_num [jsFloor]) (by norm_num [jsFloor])⟩

/-- Claim C8: applyFilters turns a contrast value c in the range -100 to
100 into the linear transform with slope 1 plus c over 100 and the
sign-dependent intercept of the specification, and applies no color
correction at all when brightness, contrast and saturation are all zero. -/
theorem contrast_linear_map (c : ℚ) (h1 : -100 ≤ c) (h2 : c ≤ 100) :
    colorCorrectionOps 0 c 0 =
      (if c = 0 then []
       else [ColorOp.linear (1 + c / 100)
         (if 0 ≤ c then -0.5 * ((1 + c / 100) - 1) else 0.25 * (1 - (1 + c / 100)))]) ∧
    (∀ a b v : ℚ, linearApply a b v = a * v + b) ∧
    colorCorrectionOps 0 0 0 = [] := by
  refine ⟨?_, fun a b v => rfl, by simp [colorCorrectionOps]⟩
  by_cases hc : c = 0
  · simp [colorCorrectionOps, hc]
  · rcases lt_or_ge c 0 with hneg | hpos
    · simp [colorCorrectionOps, hc, contrastFactor, contrastIntercept, hneg, not_le.mpr hneg]
    · simp [colorCorrectionOps, hc, contrastFactor, contrastIntercept, not_lt.mpr hpos, hpos]

/-- Witness for claim C8 at contrast 50, together with the empty operation
list at all-zero adjustments. -/
theorem contrast_linear_map_witness :
    colorCorrectionOps 0 50 0 =
      (if (50 : ℚ) = 0 then []
       else [ColorOp.linear (1 + (50 : ℚ) / 100)
         (if 0 ≤ (50 : ℚ) then -0.5 * ((1 + (50 : ℚ) / 100) - 1)
          else 0.25 * (1 - (1 + (50 : ℚ) / 100)))]) ∧
    colorCorrectionOps 0 0 0 = [] :=
  ⟨(contrast_linear_map 50 (by norm_num) (by norm_num)).1,
   (contrast_linear_map 50 (by norm_num) (by norm_num)).2.2⟩

/-- Claim C9: determineFormat takes a truthy explicit parameter first with
jpg normalized to jpeg, otherwise a recognized path extension with jpg
again normalized, and otherwise the configured default. -/
theorem determine_format_precedence (p fp d : String) :
    (fp ≠ (r"") → determineFormat p (some fp) d = (if fp = (r"jpg") then (r"jpeg") else fp)) ∧
    (lastDotSegment p = (r"jpg") → determineFormat p none d = (r"jpeg")) ∧
    (lastDotSegment p ∈ [(r"webp"), (r"jpeg"), (r"png"), (r"avif")] →
      determineFormat p none d = lastDotSegment p) ∧
    (lastDotSegment p ∉ [(r"webp"), (r"jpg"), (r"jpeg"), (r"png"), (r"avif")] →
      determineFormat p none d = d) := by
  have hbase : determineFormat p none d = (extFormatMap (lastDotSegment p)).getD d := rfl
  refine ⟨?_, ?_, ?_, ?_⟩
  · intro hfp
    show (if fp = (r"") then _ else _) = _
    rw [if_neg hfp]
  · intro h
    rw [hbase, h]
    rfl
  · intro h
    simp only [List.mem_cons, List.mem_singleton, List.not_mem_nil, or_false] at h
    rcases h with h | h | h | h <;> rw [hbase, h] <;> rfl
  · intro h
    rw [hbase]
    have hnone : extFormatMap (lastDotSegment p) = none := by
      unfold extFormatMap
      split_ifs with h1 h2 h3 h4 h5
      · exact absurd (by rw [h1]; decide) h
      · exact absurd (by rw [h2]; decide) h
      · exact absurd (by rw [h3]; decide) h
      · exact absurd (by rw [h4]; decide) h
      · exact absurd (by rw [h5]; decide) h
      · rfl
    rw [hnone]
    rfl

/-- Witness for claim C9: an explicit jpg parameter wins over a png
extension, a png extension is used when no parameter is given, and an
unknown extension falls back to the default. -/
theorem determine_format_precedence_witness :
    determineFormat (r"photo.png") (some (r"jpg")) (r"webp") =
      (if (r"jpg") = (r"jpg") then (r"jpeg") else (r"jpg")) ∧
    determineFormat (r"photo.png") none (r"webp") = lastDotSegment (r"photo.png") ∧
    determineFormat (r"notes.txt") none (r"webp") = (r"webp") :=
  ⟨(determine_format_precedence (r"photo.png") (r"jpg") (r"webp")).1 (by decide),
   (determine_format_precedence (r"photo.png") (r"jpg") (r"webp")).2.2.1 (by decide),
   (determine_format_precedence (r"notes.txt") (r"jpg") (r"webp")).2.2.2 (by decide)⟩

/-- Claim C10: addWatermark raises the missing-source error exactly when
neither a truthy text nor a truthy watermark image path is supplied, and
when both are supplied the text watermark wins and the image path is
ignored entirely. -/
theorem watermark_source_selection (text imagePath : Option String) :
    ((∃ msg, selectWatermarkSource text imagePath = Except.error msg) ↔
      truthyStr text = false ∧ truthyStr imagePath = false) ∧
    (truthyStr text = true →
      selectWatermarkSource text imagePath =
        Except.ok (WatermarkSource.textWm (text.getD (r""))) ∧
      selectWatermarkSource text imagePath = selectWatermarkSource text none) := by
  constructor
  · unfold selectWatermarkSource
    split_ifs with hA hB <;> simp_all
  · intro ht
    unfold selectWatermarkSource
    simp [ht]

/-- Witness for claim C10: with both a text and an image path supplied,
the text watermark is selected and the image path has no influence. -/
theorem watermark_source_selection_witness :
    selectWatermarkSource (some (r"Sample")) (some (r"logo.png")) =
      Except.ok (WatermarkSource.textWm ((some (r"Sample")).getD (r""))) ∧
    selectWatermarkSource (some (r"Sample")) (some (r"logo.png")) =
      selectWatermarkSource (some (r"Sample")) none :=
  (watermark_source_selection (some (r"Sample")) (some (r"logo.png"))).2 (by decide)

end TscodexMcpImages
